import Mathlib

/-!
# finalMain.js : a shallow embedding

The scene program (gold sphere on a grey pedestal on a wooden floor) is embedded
as pure functions over an explicit host state.

* Numbers live in an arbitrary field `α`: arithmetic is exact, so a
  `Float32Array` copy is the identity and a literal such as `1.6` denotes one
  value wherever it is written.
* The WebGL context is the log of the calls made on it, oldest first, plus a
  counter for the handles of created objects.
* The module-level variables are the fields of `Globals`; the ones `init`
  assigns before it registers `handleKey` (program, shapes, vertex arrays,
  texture) are present in every state `handleKey` and `draw` run on.
* glMatrix, `Math` and the shape classes are not part of the script: `Lib`
  holds what is taken from them.  `mat4.rotateY`, `mat4.translate` and
  `mat4.scale` multiply their argument on the right by the matrix they name.
* A function that may end in an exception returns `Except Failure`.
-/

namespace FinalMain

/-! ## Values shared with the graphics backend -/

/-- WebGL object handle (buffer, vertex array, texture, shader, program). -/
abbrev Handle := Nat

/-- WebGL enumerant, by its numeric value. -/
abbrev GLenum := Nat

/-- Attribute location as stored on the program object: `none` is a property
that was never assigned (`undefined`), `some (-1)` an attribute the linked
shader does not declare. -/
abbrev AttribLoc := Option Int

/-- Uniform location as stored on the program object (`none`: undefined or null). -/
abbrev UniformLoc := Option Nat

/-- A glMatrix `vec3`. -/
abbrev Vec3 (α : Type) := α × α × α

/-- A glMatrix `mat4`, as the 4×4 matrix it denotes. -/
abbrev Mat4 (α : Type) := Matrix (Fin 4) (Fin 4) α

def DEPTH_BUFFER_BIT : GLenum := 0x0100
def COLOR_BUFFER_BIT : GLenum := 0x4000
def TRIANGLES : GLenum := 0x0004
def LEQUAL : GLenum := 0x0203
def BACK : GLenum := 0x0405
def CCW : GLenum := 0x0901
def CULL_FACE : GLenum := 0x0B44
def DEPTH_TEST : GLenum := 0x0B71
def TEXTURE_2D : GLenum := 0x0DE1
def UNSIGNED_BYTE : GLenum := 0x1401
def UNSIGNED_SHORT : GLenum := 0x1403
def FLOAT : GLenum := 0x1406
def RGBA : GLenum := 0x1908
def LINEAR : GLenum := 0x2601
def LINEAR_MIPMAP_LINEAR : GLenum := 0x2703
def TEXTURE_MAG_FILTER : GLenum := 0x2800
def TEXTURE_MIN_FILTER : GLenum := 0x2801
def TEXTURE0 : GLenum := 0x84C0
def ARRAY_BUFFER : GLenum := 0x8892
def ELEMENT_ARRAY_BUFFER : GLenum := 0x8893
def STATIC_DRAW : GLenum := 0x88E4
def FRAGMENT_SHADER : GLenum := 0x8B30
def VERTEX_SHADER : GLenum := 0x8B31
def UNPACK_FLIP_Y_WEBGL : GLenum := 0x9240

/-- One call on the WebGL2 context, with the arguments it was given.  Calls
that create an object carry the handle that was returned. -/
inductive GLCmd (α : Type) where
  | viewport (x y w h : Nat)
  | enable (cap : GLenum)
  | cullFace (mode : GLenum)
  | frontFace (mode : GLenum)
  | clearColor (r g b a : α)
  | clearDepth (d : α)
  | depthFunc (f : GLenum)
  | clear (mask : Nat)
  | pixelStorei (pname : GLenum) (value : Bool)
  | createTexture (tex : Handle)
  | bindTexture (target : GLenum) (tex : Option Handle)
  | texImage2D (target : GLenum) (level : Nat) (internalformat format type : GLenum)
      (image : Nat)
  | generateMipmap (target : GLenum)
  | texParameteri (target pname value : GLenum)
  | activeTexture (unit : GLenum)
  | createShader (shader : Handle) (kind : GLenum)
  | shaderSource (shader : Handle) (source : String)
  | compileShader (shader : Handle)
  | deleteShader (shader : Handle)
  | createProgram (program : Handle)
  | attachShader (program shader : Handle)
  | linkProgram (program : Handle)
  | useProgram (program : Handle)
  | uniformMatrix4fv (loc : UniformLoc) (transpose : Bool) (m : Mat4 α)
  | uniform3fv (loc : UniformLoc) (v : Vec3 α)
  | uniform1f (loc : UniformLoc) (x : α)
  | uniform1i (loc : UniformLoc) (i : Int)
  | createVertexArray (vao : Handle)
  | bindVertexArray (vao : Option Handle)
  | createBuffer (buf : Handle)
  | bindBuffer (target : GLenum) (buf : Option Handle)
  | bufferDataFloat32 (target : GLenum) (data : List α) (usage : GLenum)
  | bufferDataUint16 (target : GLenum) (data : List Nat) (usage : GLenum)
  | enableVertexAttribArray (index : AttribLoc)
  | vertexAttribPointer (index : AttribLoc) (size : Nat) (type : GLenum)
      (normalized : Bool) (stride offset : Nat)
  | drawElements (mode : GLenum) (count : Nat) (type : GLenum) (offset : Nat)

/-- Host state outside the script: the WebGL context (the calls made so far,
oldest first, and the next unused object handle) and the error console. -/
structure Host (α : Type) where
  nextHandle : Nat
  trace : List (GLCmd α)
  console : List String

/-- Record one context call. -/
def Host.emit {α : Type} (h : Host α) (c : GLCmd α) : Host α :=
  { h with trace := h.trace ++ [c] }

/-- Allocate the handle of a newly created WebGL object. -/
def Host.fresh {α : Type} (h : Host α) : Handle × Host α :=
  (h.nextHandle, { h with nextHandle := h.nextHandle + 1 })

/-- Write one `console.error` line. -/
def Host.error {α : Type} (h : Host α) (msg : String) : Host α :=
  { h with console := h.console ++ [msg] }

/-- The host right after the context has been obtained. -/
def Host.start (α : Type) : Host α :=
  { nextHandle := 1, trace := [], console := [] }

/-- Abrupt completions: the error taxonomy of the design (section 7) and the
`TypeError` the WebGL binding raises on a null object argument. -/
inductive Failure where
  | TypeError (what : String)
  | ShaderIncompatible
  | InvalidParameter
  deriving DecidableEq, Repr

/-- Record several context calls, in order. -/
def Host.emits {α : Type} (h : Host α) (cs : List (GLCmd α)) : Host α :=
  cs.foldl Host.emit h

/-! ## Code outside the script: glMatrix, `Math`, the shape classes -/

/-- Mesh data of a `cgIShape` object, as far as the script reads it. -/
structure Shape (α : Type) where
  points : List α
  normals : List α
  uv : List α
  indices : List Nat

/-- The quotient `canvas.width / canvas.height` of two non-negative integers as
a JavaScript number: finite, `Infinity` (zero height) or `NaN` (both zero). -/
inductive Aspect (α : Type) where
  | finite (a : α)
  | infinity
  | nan

/-- What the script calls but does not define: the constant `Math.PI` and the
functions `Math.sin`/`Math.cos` behind glMatrix, the two glMatrix camera
builders, and the shape constructors of `myShapes`. -/
structure Lib (α : Type) where
  PI : α
  sin : α → α
  cos : α → α
  perspective : α → Aspect α → α → α → Mat4 α
  lookAt : Vec3 α → Vec3 α → Vec3 α → Mat4 α
  Sphere : Nat → Nat → Shape α
  Cube : Nat → Shape α

variable {α : Type} [Field α]

/-- The JavaScript quotient `width / height` of two canvas dimensions. -/
def Aspect.ofSize (width height : Nat) : Aspect α :=
  if height ≠ 0 then Aspect.finite ((width : α) / (height : α))
  else if width ≠ 0 then Aspect.infinity
  else Aspect.nan

/-- The glMatrix helper `glMatrix.toRadian(a)`: `a * (Math.PI / 180)`. -/
def toRadian (L : Lib α) (a : α) : α := a * (L.PI / 180)

/-- Matrix of the rotation by `rad` about the Y axis. -/
def rotationYMatrix (L : Lib α) (rad : α) : Mat4 α :=
  !![L.cos rad, 0, L.sin rad, 0;
     0, 1, 0, 0;
     -(L.sin rad), 0, L.cos rad, 0;
     0, 0, 0, 1]

/-- Matrix of the translation by `v`. -/
def translationMatrix (v : Vec3 α) : Mat4 α :=
  !![1, 0, 0, v.1;
     0, 1, 0, v.2.1;
     0, 0, 1, v.2.2;
     0, 0, 0, 1]

/-- Matrix of the scaling by `v`. -/
def scalingMatrix (v : Vec3 α) : Mat4 α :=
  !![v.1, 0, 0, 0;
     0, v.2.1, 0, 0;
     0, 0, v.2.2, 0;
     0, 0, 0, 1]

/-- The glMatrix call `mat4.create()`: the identity. -/
def mat4.create : Mat4 α := 1

/-- The glMatrix call `mat4.rotateY(out, a, rad)`: `a` times the rotation. -/
def mat4.rotateY (L : Lib α) (a : Mat4 α) (rad : α) : Mat4 α := a * rotationYMatrix L rad

/-- The glMatrix call `mat4.translate(out, a, v)`: `a` times the translation. -/
def mat4.translate (a : Mat4 α) (v : Vec3 α) : Mat4 α := a * translationMatrix v

/-- The glMatrix call `mat4.scale(out, a, v)`: `a` times the scaling. -/
def mat4.scale (a : Mat4 α) (v : Vec3 α) : Mat4 α := a * scalingMatrix v

/-! ## Module-level state -/

/-- The program object with the location properties `initPrograms` hangs on it. -/
structure Program where
  handle : Handle
  aVertexPosition : AttribLoc
  aVertexNormal : AttribLoc
  aTexCoord : AttribLoc
  uModelMatrix : UniformLoc
  uViewMatrix : UniformLoc
  uProjectionMatrix : UniformLoc
  uViewPosition : UniformLoc
  uLightPosition : UniformLoc
  uLightAmbient : UniformLoc
  uLightDiffuse : UniformLoc
  uLightSpecular : UniformLoc
  uMaterialAmbient : UniformLoc
  uMaterialDiffuse : UniformLoc
  uMaterialSpecular : UniformLoc
  uShininess : UniformLoc
  uUseTexture : UniformLoc
  uSampler : UniformLoc
  deriving DecidableEq, Repr

/-- The shapes and vertex arrays assigned by `createShapes`. -/
structure SceneObjects (α : Type) where
  sphereShape : Shape α
  cubeShape : Shape α
  floorShape : Shape α
  sphereVAO : Handle
  cubeVAO : Handle
  floorVAO : Handle

/-- The module-level variables once `init` has assigned them, together with the
host state and the canvas size read through `gl.canvas`. -/
structure Globals (α : Type) extends SceneObjects α where
  host : Host α
  canvasWidth : Nat
  canvasHeight : Nat
  phongProgram : Program
  woodTexture : Option Handle
  viewMatrix : Mat4 α
  projMatrix : Mat4 α
  cameraPosition : Vec3 α
  rotationY : α

/-- Initial value of `cameraPosition`. -/
def initialCameraPosition : Vec3 α := (0.0, 1.6, 4.0)

/-- Initial value of `rotationY`. -/
def initialRotationY : α := 0.0

def lightPosition : Vec3 α := (1.8, 2.5, 2.0)
def lightAmbient : Vec3 α := (0.20, 0.20, 0.20)
def lightDiffuse : Vec3 α := (1.0, 1.0, 1.0)
def lightSpecular : Vec3 α := (0.9, 0.9, 0.9)

def goldAmbient : Vec3 α := (0.25, 0.20, 0.07)
def goldDiffuse : Vec3 α := (1.0, 0.72, 0.22)
def goldSpecular : Vec3 α := (0.9, 0.9, 0.9)
def goldShininess : α := 32.0

def greyAmbient : Vec3 α := (0.2, 0.2, 0.2)
def greyDiffuse : Vec3 α := (0.7, 0.7, 0.7)
def greySpecular : Vec3 α := (0.15, 0.15, 0.15)
def greyShininess : α := 8.0

def floorAmbient : Vec3 α := (0.25, 0.20, 0.15)
def floorDiffuse : Vec3 α := (1.0, 1.0, 1.0)
def floorSpecular : Vec3 α := (0.1, 0.1, 0.1)
def floorShininess : α := 8.0

/-! ## Rendering -/

/-- The function `setUpCamera(program)`: perspective and look-at matrices from
the canvas size and `cameraPosition`, submitted with the eye position. -/
def setUpCamera (L : Lib α) (g : Globals α) (program : Program) : Globals α :=
  let aspect : Aspect α := Aspect.ofSize g.canvasWidth g.canvasHeight
  let projMatrix := L.perspective (toRadian L 45) aspect 0.1 100.0
  let eye := g.cameraPosition
  let center : Vec3 α := (0.0, 0.8, 0.0)
  let up : Vec3 α := (0.0, 1.0, 0.0)
  let viewMatrix := L.lookAt eye center up
  { g with
    projMatrix := projMatrix
    viewMatrix := viewMatrix
    host := g.host.emits
      [ GLCmd.useProgram program.handle,
        GLCmd.uniformMatrix4fv program.uProjectionMatrix false projMatrix,
        GLCmd.uniformMatrix4fv program.uViewMatrix false viewMatrix,
        GLCmd.uniform3fv program.uViewPosition eye ] }

/-- Model matrix of the gold sphere. -/
def sphereModel (L : Lib α) (rotationY : α) : Mat4 α :=
  mat4.translate (mat4.rotateY L mat4.create rotationY) (0.0, 0.75, 0.0)

/-- Model matrix of the grey pedestal cube. -/
def cubeModel (L : Lib α) (rotationY : α) : Mat4 α :=
  mat4.scale (mat4.translate (mat4.rotateY L mat4.create rotationY) (0.0, -0.25, 0.0))
    (1.4, 0.75, 1.4)

/-- Model matrix of the wooden floor. -/
def floorModel : Mat4 α :=
  mat4.scale (mat4.translate mat4.create (0.0, -1.1, 0.0)) (8.0, 0.1, 6.0)

/-- The function `drawShapes()`: camera and light, then sphere, pedestal, floor. -/
def drawShapes (L : Lib α) (g : Globals α) : Globals α :=
  let p := g.phongProgram
  let g1 := { g with host := g.host.emit (GLCmd.useProgram p.handle) }
  let g2 := setUpCamera L g1 p
  { g2 with
    host := g2.host.emits
      [ GLCmd.uniform3fv p.uLightPosition lightPosition,
        GLCmd.uniform3fv p.uLightAmbient lightAmbient,
        GLCmd.uniform3fv p.uLightDiffuse lightDiffuse,
        GLCmd.uniform3fv p.uLightSpecular lightSpecular,
        -- gold sphere
        GLCmd.uniformMatrix4fv p.uModelMatrix false (sphereModel L g2.rotationY),
        GLCmd.uniform3fv p.uMaterialAmbient goldAmbient,
        GLCmd.uniform3fv p.uMaterialDiffuse goldDiffuse,
        GLCmd.uniform3fv p.uMaterialSpecular goldSpecular,
        GLCmd.uniform1f p.uShininess goldShininess,
        GLCmd.uniform1i p.uUseTexture 0,
        GLCmd.bindVertexArray (some g2.sphereVAO),
        GLCmd.drawElements TRIANGLES g2.sphereShape.indices.length UNSIGNED_SHORT 0,
        -- grey cube pedestal
        GLCmd.uniformMatrix4fv p.uModelMatrix false (cubeModel L g2.rotationY),
        GLCmd.uniform3fv p.uMaterialAmbient greyAmbient,
        GLCmd.uniform3fv p.uMaterialDiffuse greyDiffuse,
        GLCmd.uniform3fv p.uMaterialSpecular greySpecular,
        GLCmd.uniform1f p.uShininess greyShininess,
        GLCmd.uniform1i p.uUseTexture 0,
        GLCmd.bindVertexArray (some g2.cubeVAO),
        GLCmd.drawElements TRIANGLES g2.cubeShape.indices.length UNSIGNED_SHORT 0,
        -- wooden floor
        GLCmd.uniformMatrix4fv p.uModelMatrix false floorModel,
        GLCmd.uniform3fv p.uMaterialAmbient floorAmbient,
        GLCmd.uniform3fv p.uMaterialDiffuse floorDiffuse,
        GLCmd.uniform3fv p.uMaterialSpecular floorSpecular,
        GLCmd.uniform1f p.uShininess floorShininess,
        GLCmd.uniform1i p.uUseTexture 1,
        GLCmd.activeTexture TEXTURE0,
        GLCmd.bindTexture TEXTURE_2D g2.woodTexture,
        GLCmd.uniform1i p.uSampler 0,
        GLCmd.bindVertexArray (some g2.floorVAO),
        GLCmd.drawElements TRIANGLES g2.floorShape.indices.length UNSIGNED_SHORT 0,
        GLCmd.bindVertexArray none ] }

/-- The function `draw()`: clear colour and depth, then `drawShapes()`. -/
def draw (L : Lib α) (g : Globals α) : Globals α :=
  drawShapes L
    { g with host := g.host.emit (GLCmd.clear (COLOR_BUFFER_BIT ||| DEPTH_BUFFER_BIT)) }

/-! ## Keyboard controls -/

/-- The function `handleKey(event)`, on `event.key`: rotate, zoom or reset, then
redraw. -/
def handleKey (L : Lib α) (key : String) (g : Globals α) : Globals α :=
  let step := toRadian L 5
  let g1 : Globals α :=
    if key = "a" ∨ key = "A" ∨ key = "ArrowLeft" then
      { g with rotationY := g.rotationY - step }
    else if key = "d" ∨ key = "D" ∨ key = "ArrowRight" then
      { g with rotationY := g.rotationY + step }
    else if key = "w" ∨ key = "W" ∨ key = "ArrowUp" then
      { g with cameraPosition :=
          (g.cameraPosition.1, g.cameraPosition.2.1, g.cameraPosition.2.2 - 0.2) }
    else if key = "s" ∨ key = "S" ∨ key = "ArrowDown" then
      { g with cameraPosition :=
          (g.cameraPosition.1, g.cameraPosition.2.1, g.cameraPosition.2.2 + 0.2) }
    else if key = "r" ∨ key = "R" then
      { g with cameraPosition := (0.0, 1.6, 4.0), rotationY := 0.0 }
    else g
  draw L g1

/-- A run of key presses, oldest first. -/
def handleKeys (L : Lib α) (keys : List String) (g : Globals α) : Globals α :=
  keys.foldl (fun g key => handleKey L key g) g

/-! ## Start-up -/

/-- A `<script>` element holding shader text. -/
structure Script where
  type : String
  text : String

/-- What the page and the graphics driver answer during start-up.  The canvas
element and the wood image element are taken to exist in the page. -/
structure Env where
  canvasWidth : Nat
  canvasHeight : Nat
  /-- whether `canvas.getContext('webgl2')` yields a context -/
  webgl2 : Bool
  /-- the call `document.getElementById(id)` on a shader script id -/
  scripts : String → Option Script
  /-- the `COMPILE_STATUS` the driver reports for a shader of this kind and text -/
  compileStatus : GLenum → String → Bool
  shaderInfoLog : GLenum → String → String
  /-- the `LINK_STATUS` the driver reports for the program -/
  linkStatus : Bool
  programInfoLog : String
  attribLocation : String → Int
  uniformLocation : String → Option Nat
  /-- the decoded image behind the element `wood-texture` -/
  woodImage : Nat

/-- ECMAScript white space and line terminators, the characters
`String.prototype.trim` strips. -/
def isJSWhiteSpace (c : Char) : Bool :=
  c.toNat = 0x09 || c.toNat = 0x0A || c.toNat = 0x0B || c.toNat = 0x0C || c.toNat = 0x0D
    || c.toNat = 0x20 || c.toNat = 0xA0 || c.toNat = 0x1680
    || (0x2000 ≤ c.toNat && c.toNat ≤ 0x200A)
    || c.toNat = 0x2028 || c.toNat = 0x2029 || c.toNat = 0x202F || c.toNat = 0x205F
    || c.toNat = 0x3000 || c.toNat = 0xFEFF

/-- The method `String.prototype.trim`: strip white space at both ends. -/
def jsTrim (s : String) : String :=
  String.mk ((s.toList.dropWhile isJSWhiteSpace).reverse.dropWhile isJSWhiteSpace).reverse

/-- The function `getShader(id)`: compile the shader held in a script tag;
`none` is the `null` result. -/
def getShader (env : Env) (h : Host α) (id : String) : Option Handle × Host α :=
  match env.scripts id with
  | none => (none, h.error ("Unknown script id " ++ id))
  | some script =>
    let source := jsTrim script.text
    if script.type = "x-shader/x-vertex" then
      let (shader, h) := h.fresh
      let h := h.emits [GLCmd.createShader shader VERTEX_SHADER,
        GLCmd.shaderSource shader source, GLCmd.compileShader shader]
      if ¬ env.compileStatus VERTEX_SHADER source then
        let h := h.error ("Error compiling shader " ++ id ++ " " ++
          env.shaderInfoLog VERTEX_SHADER source)
        (none, h.emit (GLCmd.deleteShader shader))
      else (some shader, h)
    else if script.type = "x-shader/x-fragment" then
      let (shader, h) := h.fresh
      let h := h.emits [GLCmd.createShader shader FRAGMENT_SHADER,
        GLCmd.shaderSource shader source, GLCmd.compileShader shader]
      if ¬ env.compileStatus FRAGMENT_SHADER source then
        let h := h.error ("Error compiling shader " ++ id ++ " " ++
          env.shaderInfoLog FRAGMENT_SHADER source)
        (none, h.emit (GLCmd.deleteShader shader))
      else (some shader, h)
    else (none, h)

/-- A program object on which no location property has been set. -/
def Program.bare (handle : Handle) : Program :=
  { handle := handle, aVertexPosition := none, aVertexNormal := none, aTexCoord := none,
    uModelMatrix := none, uViewMatrix := none, uProjectionMatrix := none,
    uViewPosition := none, uLightPosition := none, uLightAmbient := none,
    uLightDiffuse := none, uLightSpecular := none, uMaterialAmbient := none,
    uMaterialDiffuse := none, uMaterialSpecular := none, uShininess := none,
    uUseTexture := none, uSampler := none }

/-- The function `initPrograms()`: compile, attach, link, then look the
locations up.  On a failed link it logs and returns, leaving `phongProgram`
without locations.  `attachShader` raises `TypeError` on a null shader. -/
def initPrograms (env : Env) (h : Host α) : Except Failure (Program × Host α) :=
  let (vs, h) := getShader env h "phong-V"
  let (fs, h) := getShader env h "phong-F"
  let (phongProgram, h) := h.fresh
  let h := h.emit (GLCmd.createProgram phongProgram)
  match vs with
  | none => .error (Failure.TypeError "attachShader")
  | some vs =>
    let h := h.emit (GLCmd.attachShader phongProgram vs)
    match fs with
    | none => .error (Failure.TypeError "attachShader")
    | some fs =>
      let h := h.emit (GLCmd.attachShader phongProgram fs)
      let h := h.emit (GLCmd.linkProgram phongProgram)
      if ¬ env.linkStatus then
        .ok (Program.bare phongProgram,
          h.error ("Could not link shaders: " ++ env.programInfoLog))
      else
        let h := h.emit (GLCmd.useProgram phongProgram)
        .ok ({ handle := phongProgram,
               aVertexPosition := some (env.attribLocation "aVertexPosition"),
               aVertexNormal := some (env.attribLocation "aVertexNormal"),
               aTexCoord := some (env.attribLocation "aTexCoord"),
               uModelMatrix := env.uniformLocation "uModelMatrix",
               uViewMatrix := env.uniformLocation "uViewMatrix",
               uProjectionMatrix := env.uniformLocation "uProjectionMatrix",
               uViewPosition := env.uniformLocation "uViewPosition",
               uLightPosition := env.uniformLocation "uLightPosition",
               uLightAmbient := env.uniformLocation "uLightAmbient",
               uLightDiffuse := env.uniformLocation "uLightDiffuse",
               uLightSpecular := env.uniformLocation "uLightSpecular",
               uMaterialAmbient := env.uniformLocation "uMaterialAmbient",
               uMaterialDiffuse := env.uniformLocation "uMaterialDiffuse",
               uMaterialSpecular := env.uniformLocation "uMaterialSpecular",
               uShininess := env.uniformLocation "uShininess",
               uUseTexture := env.uniformLocation "uUseTexture",
               uSampler := env.uniformLocation "uSampler" }, h)

/-- The function `setUpTextures()`: upload the wood image with mipmaps. -/
def setUpTextures (env : Env) (h : Host α) : Handle × Host α :=
  let h := h.emit (GLCmd.pixelStorei UNPACK_FLIP_Y_WEBGL true)
  let (woodTexture, h) := h.fresh
  (woodTexture, h.emits
    [ GLCmd.createTexture woodTexture,
      GLCmd.bindTexture TEXTURE_2D (some woodTexture),
      GLCmd.texImage2D TEXTURE_2D 0 RGBA RGBA UNSIGNED_BYTE env.woodImage,
      GLCmd.generateMipmap TEXTURE_2D,
      GLCmd.texParameteri TEXTURE_2D TEXTURE_MIN_FILTER LINEAR_MIPMAP_LINEAR,
      GLCmd.texParameteri TEXTURE_2D TEXTURE_MAG_FILTER LINEAR,
      GLCmd.bindTexture TEXTURE_2D none ])

/-- The function `bindVAO(shape, program)`: build a vertex array from a shape.
The typed-array copies are exact for `Float32Array` (exact arithmetic) and
reduce modulo 2^16 for `Uint16Array`.  The body has no failing branch, so the
completion is always `ok`. -/
def bindVAO (h : Host α) (shape : Shape α) (program : Program) :
    Except Failure (Handle × Host α) :=
  let (vao, h) := h.fresh
  let h := h.emits [GLCmd.createVertexArray vao, GLCmd.bindVertexArray (some vao)]
  -- positions
  let (positionBuffer, h) := h.fresh
  let h := h.emits
    [ GLCmd.createBuffer positionBuffer,
      GLCmd.bindBuffer ARRAY_BUFFER (some positionBuffer),
      GLCmd.bufferDataFloat32 ARRAY_BUFFER shape.points STATIC_DRAW,
      GLCmd.enableVertexAttribArray program.aVertexPosition,
      GLCmd.vertexAttribPointer program.aVertexPosition 3 FLOAT false 0 0 ]
  -- normals
  let h :=
    if program.aVertexNormal ≠ some (-1) ∧ shape.normals.length > 0 then
      let (normalBuffer, h) := h.fresh
      h.emits
        [ GLCmd.createBuffer normalBuffer,
          GLCmd.bindBuffer ARRAY_BUFFER (some normalBuffer),
          GLCmd.bufferDataFloat32 ARRAY_BUFFER shape.normals STATIC_DRAW,
          GLCmd.enableVertexAttribArray program.aVertexNormal,
          GLCmd.vertexAttribPointer program.aVertexNormal 3 FLOAT false 0 0 ]
    else h
  -- texture coordinates
  let h :=
    if program.aTexCoord ≠ some (-1) ∧ shape.uv.length > 0 then
      let (texBuffer, h) := h.fresh
      h.emits
        [ GLCmd.createBuffer texBuffer,
          GLCmd.bindBuffer ARRAY_BUFFER (some texBuffer),
          GLCmd.bufferDataFloat32 ARRAY_BUFFER shape.uv STATIC_DRAW,
          GLCmd.enableVertexAttribArray program.aTexCoord,
          GLCmd.vertexAttribPointer program.aTexCoord 2 FLOAT false 0 0 ]
    else h
  -- indices
  let (indexBuffer, h) := h.fresh
  let h := h.emits
    [ GLCmd.createBuffer indexBuffer,
      GLCmd.bindBuffer ELEMENT_ARRAY_BUFFER (some indexBuffer),
      GLCmd.bufferDataUint16 ELEMENT_ARRAY_BUFFER (shape.indices.map (· % 65536))
        STATIC_DRAW,
      -- clean up state
      GLCmd.bindBuffer ARRAY_BUFFER none,
      GLCmd.bindVertexArray none ]
  .ok (vao, h)

/-- The function `createShapes()`: the three shapes and their vertex arrays. -/
def createShapes (L : Lib α) (h : Host α) (phongProgram : Program) :
    Except Failure (SceneObjects α × Host α) := do
  let sphereShape := L.Sphere 40 40
  let cubeShape := L.Cube 20
  let floorShape := L.Cube 2
  let (sphereVAO, h) ← bindVAO h sphereShape phongProgram
  let (cubeVAO, h) ← bindVAO h cubeShape phongProgram
  let (floorVAO, h) ← bindVAO h floorShape phongProgram
  pure ({ sphereShape := sphereShape, cubeShape := cubeShape, floorShape := floorShape,
          sphereVAO := sphereVAO, cubeVAO := cubeVAO, floorVAO := floorVAO }, h)

/-- How `init()` ends. -/
inductive InitResult (α : Type) where
  /-- no WebGL 2 context: the alert was shown and `init` returned -/
  | noContext (alert : String)
  /-- an uncaught exception ended `init` -/
  | threw (e : Failure)
  /-- The function `init` ran to its end; `handleKey` is registered on this state. -/
  | running (g : Globals α)

/-- The function `init()`: context, fixed GL state, program, texture, shapes,
key listener, first draw. -/
def init (L : Lib α) (env : Env) : InitResult α :=
  if ¬ env.webgl2 then
    InitResult.noContext "WebGL 2 is not available in this browser."
  else
    let h := (Host.start α).emits
      [ GLCmd.viewport 0 0 env.canvasWidth env.canvasHeight,
        GLCmd.enable DEPTH_TEST,
        GLCmd.enable CULL_FACE,
        GLCmd.cullFace BACK,
        GLCmd.frontFace CCW,
        GLCmd.clearColor 0.03 0.03 0.03 1.0,
        GLCmd.clearDepth 1.0,
        GLCmd.depthFunc LEQUAL ]
    match initPrograms env h with
    | .error e => InitResult.threw e
    | .ok (phongProgram, h) =>
      let (woodTexture, h) := setUpTextures env h
      match createShapes L h phongProgram with
      | .error e => InitResult.threw e
      | .ok (objects, h) =>
        InitResult.running (draw L
          { objects with
            host := h
            canvasWidth := env.canvasWidth
            canvasHeight := env.canvasHeight
            phongProgram := phongProgram
            woodTexture := some woodTexture
            viewMatrix := mat4.create
            projMatrix := mat4.create
            cameraPosition := initialCameraPosition
            rotationY := initialRotationY })

/-! ## Reading a command log -/

/-- Whether the call is a framebuffer clear. -/
def GLCmd.isClear {α : Type} : GLCmd α → Bool
  | GLCmd.clear _ => true
  | _ => false

/-- Whether the call is an indexed draw. -/
def GLCmd.isDrawElements {α : Type} : GLCmd α → Bool
  | GLCmd.drawElements _ _ _ _ => true
  | _ => false

/-- The calls a step added to the log of `before` to reach that of `after`. -/
def emitted {α : Type} (before after : Host α) : List (GLCmd α) :=
  after.trace.drop before.trace.length

/-- Indexed draws of a log, each with the vertex array bound when it was issued
and its element count; `bound` is the vertex array bound at the start. -/
def drawCalls {α : Type} (bound : Option Handle) :
    List (GLCmd α) → List (Option Handle × Nat)
  | [] => []
  | GLCmd.bindVertexArray vao :: cs => drawCalls vao cs
  | GLCmd.drawElements _ count _ _ :: cs => (bound, count) :: drawCalls bound cs
  | _ :: cs => drawCalls bound cs

/-- Element-array uploads of a log, each with the vertex array bound when it
was made and the number of elements uploaded. -/
def elementUploads {α : Type} (bound : Option Handle) :
    List (GLCmd α) → List (Option Handle × Nat)
  | [] => []
  | GLCmd.bindVertexArray vao :: cs => elementUploads vao cs
  | GLCmd.bufferDataUint16 target data _ :: cs =>
    if target = ELEMENT_ARRAY_BUFFER then (bound, data.length) :: elementUploads bound cs
    else elementUploads bound cs
  | _ :: cs => elementUploads bound cs

/-- Attribute bindings of a log: every `vertexAttribPointer` call with its
slot, its component count and the float data last uploaded to the array buffer
bound at that moment (`uploaded`: that data at the start, if any). -/
def attribBindings {α : Type} (uploaded : Option (List α)) :
    List (GLCmd α) → List (AttribLoc × Nat × Option (List α))
  | [] => []
  | GLCmd.bindBuffer target _ :: cs =>
    if target = ARRAY_BUFFER then attribBindings none cs
    else attribBindings uploaded cs
  | GLCmd.bufferDataFloat32 target data _ :: cs =>
    if target = ARRAY_BUFFER then attribBindings (some data) cs
    else attribBindings uploaded cs
  | GLCmd.vertexAttribPointer index size _ _ _ _ :: cs =>
    (index, size, uploaded) :: attribBindings uploaded cs
  | _ :: cs => attribBindings uploaded cs

/-- For every indexed draw of a log: the vertex array bound when it is issued
and the last `uniformMatrix4fv` call before it, as location and matrix
(`bound`, `current`: both at the start of the log).  In `drawShapes` that call
is the one that submits the model matrix of the object drawn. -/
def matrixAtDraw {α : Type} (bound : Option Handle)
    (current : Option (UniformLoc × Mat4 α)) :
    List (GLCmd α) → List (Option Handle × Option (UniformLoc × Mat4 α))
  | [] => []
  | GLCmd.bindVertexArray vao :: cs => matrixAtDraw vao current cs
  | GLCmd.uniformMatrix4fv loc _ m :: cs => matrixAtDraw bound (some (loc, m)) cs
  | GLCmd.drawElements _ _ _ _ :: cs => (bound, current) :: matrixAtDraw bound current cs
  | _ :: cs => matrixAtDraw bound current cs

/-- The vertex array bound after a log has run, from the one bound before. -/
def boundAfter {α : Type} (bound : Option Handle) : List (GLCmd α) → Option Handle
  | [] => bound
  | GLCmd.bindVertexArray vao :: cs => boundAfter vao cs
  | _ :: cs => boundAfter bound cs

/-- Number of buffers a log creates. -/
def buffersCreated {α : Type} : List (GLCmd α) → Nat
  | [] => 0
  | GLCmd.createBuffer _ :: cs => buffersCreated cs + 1
  | _ :: cs => buffersCreated cs

/-- Keys that rotate left. -/
def isRotateLeft (key : String) : Bool := key = "a" || key = "A" || key = "ArrowLeft"

/-- Keys that rotate right. -/
def isRotateRight (key : String) : Bool := key = "d" || key = "D" || key = "ArrowRight"

/-- Keys that zoom in. -/
def isZoomIn (key : String) : Bool := key = "w" || key = "W" || key = "ArrowUp"

/-- Keys that zoom out. -/
def isZoomOut (key : String) : Bool := key = "s" || key = "S" || key = "ArrowDown"

/-! ## Mesh generation (design section 4.1) -/

/-- Modelled from the spec: `generateSphere(latitudeSegments, longitudeSegments)`,
the `Sphere` class of `myShapes`, which is not part of the script.  A
`(lat+1) × (lon+1)` grid of unit-sphere points over θ in [0, π] and φ in [0, 2π],
the normal of a vertex being its position (unit sphere), texture coordinate
`(φ/2π, θ/π)`, every grid quad cut into two counter-clockwise triangles; a
segment count below 1 fails with `InvalidParameter`. -/
def generateSphere (L : Lib α) (latitudeSegments longitudeSegments : Nat) :
    Except Failure (Shape α) :=
  if latitudeSegments < 1 ∨ longitudeSegments < 1 then .error Failure.InvalidParameter
  else
    let grid : List (Nat × Nat) :=
      (List.range (latitudeSegments + 1)).flatMap fun i =>
        (List.range (longitudeSegments + 1)).map fun j => (i, j)
    let theta : Nat → α := fun i => L.PI * (i : α) / (latitudeSegments : α)
    let phi : Nat → α := fun j => 2 * L.PI * (j : α) / (longitudeSegments : α)
    let position : Nat × Nat → List α := fun v =>
      [ L.sin (theta v.1) * L.cos (phi v.2), L.cos (theta v.1),
        L.sin (theta v.1) * L.sin (phi v.2) ]
    let quads : List (Nat × Nat) :=
      (List.range latitudeSegments).flatMap fun i =>
        (List.range longitudeSegments).map fun j => (i, j)
    .ok
      { points := grid.flatMap position
        normals := grid.flatMap position
        uv := grid.flatMap fun v =>
          [ phi v.2 / (2 * L.PI), theta v.1 / L.PI ]
        indices := quads.flatMap fun q =>
          let a := q.1 * (longitudeSegments + 1) + q.2
          let b := a + (longitudeSegments + 1)
          [a, a + 1, b, a + 1, b + 1, b] }

/-! ## Sample inputs -/

/-- A one-triangle shape. -/
def Shape.triangle : Shape α :=
  { points := [0, 0, 0, 1, 0, 0, 0, 1, 0]
    normals := [0, 0, 1, 0, 0, 1, 0, 0, 1]
    uv := [0, 0, 1, 0, 0, 1]
    indices := [0, 1, 2] }

/-- The same triangle without normals. -/
def Shape.bareTriangle : Shape α :=
  { points := [0, 0, 0, 1, 0, 0, 0, 1, 0]
    normals := []
    uv := [0, 0, 1, 0, 0, 1]
    indices := [0, 1, 2] }

/-- A library instance around a given π, sine and cosine: identity camera
matrices, one-triangle shapes. -/
def Lib.sample (PI : α) (sin cos : α → α) : Lib α :=
  { PI := PI, sin := sin, cos := cos
    perspective := fun _ _ _ _ => 1
    lookAt := fun _ _ _ => 1
    Sphere := fun _ _ => Shape.triangle
    Cube := fun _ => Shape.triangle }

/-- A linked program with every attribute on a slot of its own. -/
def Program.sample : Program :=
  { handle := 3, aVertexPosition := some 0, aVertexNormal := some 1, aTexCoord := some 2,
    uModelMatrix := some 0, uViewMatrix := some 1, uProjectionMatrix := some 2,
    uViewPosition := some 3, uLightPosition := some 4, uLightAmbient := some 5,
    uLightDiffuse := some 6, uLightSpecular := some 7, uMaterialAmbient := some 8,
    uMaterialDiffuse := some 9, uMaterialSpecular := some 10, uShininess := some 11,
    uUseTexture := some 12, uSampler := some 13 }

/-- A linked program whose shader declares no position attribute. -/
def Program.noPosition : Program :=
  { Program.sample with aVertexPosition := some (-1) }

/-- A state as `init` leaves it, on a fresh log. -/
def Globals.sample : Globals α :=
  { sphereShape := Shape.triangle, cubeShape := Shape.triangle, floorShape := Shape.triangle
    sphereVAO := 5, cubeVAO := 10, floorVAO := 15
    host := { nextHandle := 20, trace := [], console := [] }
    canvasWidth := 800, canvasHeight := 600
    phongProgram := Program.sample
    woodTexture := some 4
    viewMatrix := mat4.create, projMatrix := mat4.create
    cameraPosition := initialCameraPosition
    rotationY := initialRotationY }

/-- A page whose two shaders compile and whose program links or not. -/
def Env.sample (linkStatus : Bool) : Env :=
  { canvasWidth := 800, canvasHeight := 600, webgl2 := true
    scripts := fun id =>
      if id = "phong-V" then some { type := "x-shader/x-vertex", text := "precision highp float;" }
      else if id = "phong-F" then
        some { type := "x-shader/x-fragment", text := "precision highp float;" }
      else none
    compileStatus := fun _ _ => true
    shaderInfoLog := fun _ _ => ""
    linkStatus := linkStatus
    programInfoLog := "link error"
    attribLocation := fun name =>
      if name = "aVertexPosition" then 0 else if name = "aVertexNormal" then 1
      else if name = "aTexCoord" then 2 else -1
    uniformLocation := fun _ => some 0
    woodImage := 0 }

/-! ## Basic facts -/

@[simp] theorem Host.emit_trace {β : Type} (h : Host β) (c : GLCmd β) :
    (h.emit c).trace = h.trace ++ [c] := rfl

@[simp] theorem Host.emits_trace {β : Type} (h : Host β) (cs : List (GLCmd β)) :
    (h.emits cs).trace = h.trace ++ cs := by
  induction cs generalizing h with
  | nil => simp [Host.emits]
  | cons c cs ih =>
    have := ih (h.emit c)
    simp only [Host.emits, List.foldl_cons] at this ⊢
    simp [this]

@[simp] theorem Host.emit_console {β : Type} (h : Host β) (c : GLCmd β) :
    (h.emit c).console = h.console := rfl

@[simp] theorem Host.emits_console {β : Type} (h : Host β) (cs : List (GLCmd β)) :
    (h.emits cs).console = h.console := by
  induction cs generalizing h with
  | nil => simp [Host.emits]
  | cons c cs ih =>
    have := ih (h.emit c)
    simp only [Host.emits, List.foldl_cons] at this ⊢
    simp [this]

@[simp] theorem Host.emit_nextHandle {β : Type} (h : Host β) (c : GLCmd β) :
    (h.emit c).nextHandle = h.nextHandle := rfl

@[simp] theorem Host.emits_nextHandle {β : Type} (h : Host β) (cs : List (GLCmd β)) :
    (h.emits cs).nextHandle = h.nextHandle := by
  induction cs generalizing h with
  | nil => simp [Host.emits]
  | cons c cs ih =>
    have := ih (h.emit c)
    simp only [Host.emits, List.foldl_cons] at this ⊢
    simp [this]

@[simp] theorem Host.fresh_trace {β : Type} (h : Host β) : h.fresh.2.trace = h.trace := rfl

theorem emitted_of_append {β : Type} (a b : Host β) (cs : List (GLCmd β))
    (h : b.trace = a.trace ++ cs) : emitted a b = cs := by
  simp [emitted, h]

theorem draw_rotationY (L : Lib α) (g : Globals α) :
    (draw L g).rotationY = g.rotationY := by
  simp [draw, drawShapes, setUpCamera]

theorem draw_cameraPosition (L : Lib α) (g : Globals α) :
    (draw L g).cameraPosition = g.cameraPosition := by
  simp [draw, drawShapes, setUpCamera]

/-- What `handleKey` does to the rotation: the redraw leaves it alone. -/
theorem handleKey_rotationY (L : Lib α) (key : String) (g : Globals α) :
    (handleKey L key g).rotationY =
      if key = "a" ∨ key = "A" ∨ key = "ArrowLeft" then g.rotationY - toRadian L 5
      else if key = "d" ∨ key = "D" ∨ key = "ArrowRight" then g.rotationY + toRadian L 5
      else if key = "w" ∨ key = "W" ∨ key = "ArrowUp" then g.rotationY
      else if key = "s" ∨ key = "S" ∨ key = "ArrowDown" then g.rotationY
      else if key = "r" ∨ key = "R" then 0.0
      else g.rotationY := by
  unfold handleKey
  rw [draw_rotationY]
  split_ifs <;> rfl

/-- What `handleKey` does to the camera position. -/
theorem handleKey_cameraPosition (L : Lib α) (key : String) (g : Globals α) :
    (handleKey L key g).cameraPosition =
      if key = "a" ∨ key = "A" ∨ key = "ArrowLeft" then g.cameraPosition
      else if key = "d" ∨ key = "D" ∨ key = "ArrowRight" then g.cameraPosition
      else if key = "w" ∨ key = "W" ∨ key = "ArrowUp" then
        (g.cameraPosition.1, g.cameraPosition.2.1, g.cameraPosition.2.2 - 0.2)
      else if key = "s" ∨ key = "S" ∨ key = "ArrowDown" then
        (g.cameraPosition.1, g.cameraPosition.2.1, g.cameraPosition.2.2 + 0.2)
      else if key = "r" ∨ key = "R" then (0.0, 1.6, 4.0)
      else g.cameraPosition := by
  unfold handleKey
  rw [draw_cameraPosition]
  split_ifs <;> rfl

/-! ## Reset, no-op keys -/

/-- C1: from every state reached by any run of key presses, a press of `r` or
of `R` leaves `rotationY = 0.0` and `cameraPosition = (0.0, 1.6, 4.0)`, which are
the initial values of the two module-level variables, and a second reset gives
the same two values again. -/
theorem reset_exact (L : Lib α) (keys : List String) (g : Globals α) :
    ((handleKey L "r" (handleKeys L keys g)).rotationY = 0.0
      ∧ (handleKey L "r" (handleKeys L keys g)).cameraPosition = (0.0, 1.6, 4.0))
    ∧ ((handleKey L "R" (handleKeys L keys g)).rotationY = 0.0
      ∧ (handleKey L "R" (handleKeys L keys g)).cameraPosition = (0.0, 1.6, 4.0))
    ∧ ((0.0 : α) = initialRotationY ∧ ((0.0, 1.6, 4.0) : Vec3 α) = initialCameraPosition)
    ∧ ((handleKey L "r" (handleKey L "r" (handleKeys L keys g))).rotationY
          = (handleKey L "r" (handleKeys L keys g)).rotationY
      ∧ (handleKey L "r" (handleKey L "r" (handleKeys L keys g))).cameraPosition
          = (handleKey L "r" (handleKeys L keys g)).cameraPosition)
    ∧ ((handleKey L "R" (handleKey L "R" (handleKeys L keys g))).rotationY
          = (handleKey L "R" (handleKeys L keys g)).rotationY
      ∧ (handleKey L "R" (handleKey L "R" (handleKeys L keys g))).cameraPosition
          = (handleKey L "R" (handleKeys L keys g)).cameraPosition) := by
  simp [handleKey_rotationY, handleKey_cameraPosition, initialRotationY,
    initialCameraPosition]

/-- C3: a key outside the fourteen mapped strings leaves `rotationY` and the
three components of `cameraPosition` as they were. -/
theorem unmapped_key_noop (L : Lib α) (key : String) (g : Globals α)
    (hkey : key ∉ ["a", "A", "ArrowLeft", "d", "D", "ArrowRight", "w", "W", "ArrowUp",
      "s", "S", "ArrowDown", "r", "R"]) :
    (handleKey L key g).rotationY = g.rotationY
    ∧ (handleKey L key g).cameraPosition.1 = g.cameraPosition.1
    ∧ (handleKey L key g).cameraPosition.2.1 = g.cameraPosition.2.1
    ∧ (handleKey L key g).cameraPosition.2.2 = g.cameraPosition.2.2 := by
  simp only [List.mem_cons, List.mem_singleton, List.not_mem_nil, or_false, not_or] at hkey
  obtain ⟨h1, h2, h3, h4, h5, h6, h7, h8, h9, h10, h11, h12, h13, h14⟩ := hkey
  simp [handleKey_rotationY, handleKey_cameraPosition, *]

/-! ## Closed form under rotate and zoom keys -/

theorem handleKeys_cons (L : Lib α) (key : String) (keys : List String) (g : Globals α) :
    handleKeys L (key :: keys) g = handleKeys L keys (handleKey L key g) := rfl

/-- One press of a key other than reset, in terms of the four key classes. -/
theorem handleKey_step (L : Lib α) (key : String) (g : Globals α)
    (hkey : key ≠ "r" ∧ key ≠ "R") :
    (handleKey L key g).rotationY = g.rotationY
        + (((if isRotateRight key then 1 else 0 : ℕ) : α)
            - ((if isRotateLeft key then 1 else 0 : ℕ) : α)) * toRadian L 5
    ∧ (handleKey L key g).cameraPosition =
        (g.cameraPosition.1, g.cameraPosition.2.1,
          g.cameraPosition.2.2 + 0.2 * (((if isZoomOut key then 1 else 0 : ℕ) : α)
            - ((if isZoomIn key then 1 else 0 : ℕ) : α))) := by
  rw [handleKey_rotationY, handleKey_cameraPosition]
  obtain ⟨hr, hR⟩ := hkey
  by_cases h1 : key = "a" ∨ key = "A" ∨ key = "ArrowLeft"
  · rcases h1 with rfl | rfl | rfl <;>
      simp [isRotateLeft, isRotateRight, isZoomIn, isZoomOut, sub_eq_add_neg]
  by_cases h2 : key = "d" ∨ key = "D" ∨ key = "ArrowRight"
  · rcases h2 with rfl | rfl | rfl <;>
      simp [isRotateLeft, isRotateRight, isZoomIn, isZoomOut]
  by_cases h3 : key = "w" ∨ key = "W" ∨ key = "ArrowUp"
  · rcases h3 with rfl | rfl | rfl <;>
      simp [isRotateLeft, isRotateRight, isZoomIn, isZoomOut, sub_eq_add_neg]
  by_cases h4 : key = "s" ∨ key = "S" ∨ key = "ArrowDown"
  · rcases h4 with rfl | rfl | rfl <;>
      simp [isRotateLeft, isRotateRight, isZoomIn, isZoomOut]
  · simp only [not_or] at h1 h2 h3 h4
    simp [isRotateLeft, isRotateRight, isZoomIn, isZoomOut, h1, h2, h3, h4, hr, hR]

/-- Closed form of a reset-free run, over any field. -/
theorem handleKeys_closed (L : Lib α) (keys : List String)
    (hkeys : ∀ k ∈ keys, k ≠ "r" ∧ k ≠ "R") (g : Globals α) :
    (handleKeys L keys g).rotationY = g.rotationY
        + ((keys.countP isRotateRight : α) - (keys.countP isRotateLeft : α)) * toRadian L 5
    ∧ (handleKeys L keys g).cameraPosition =
        (g.cameraPosition.1, g.cameraPosition.2.1,
          g.cameraPosition.2.2
            + 0.2 * ((keys.countP isZoomOut : α) - (keys.countP isZoomIn : α))) := by
  induction keys generalizing g with
  | nil => simp [handleKeys]
  | cons k ks ih =>
    have hk := handleKey_step L k g (hkeys k (List.mem_cons_self _ _))
    have ih' := ih (fun k' hk' => hkeys k' (List.mem_cons_of_mem _ hk')) (handleKey L k g)
    rw [handleKeys_cons, ih'.1, ih'.2, hk.1, hk.2]
    simp only [List.countP_cons, Nat.cast_add]
    refine ⟨by ring, ?_⟩
    simp only [Prod.mk.injEq, true_and]
    ring

theorem isRotateLeft_facts (k : String) (h : isRotateLeft k = true) :
    isRotateRight k = false ∧ k ≠ "r" ∧ k ≠ "R" := by
  simp only [isRotateLeft, Bool.or_eq_true, decide_eq_true_eq] at h
  rcases h with (rfl | rfl) | rfl <;> simp [isRotateRight]

theorem isRotateRight_facts (k : String) (h : isRotateRight k = true) :
    isRotateLeft k = false ∧ k ≠ "r" ∧ k ≠ "R" := by
  simp only [isRotateRight, Bool.or_eq_true, decide_eq_true_eq] at h
  rcases h with (rfl | rfl) | rfl <;> simp [isRotateLeft]

/-- C2: in exact real arithmetic with `Math.PI = π`, a run of key presses
without a reset key, holding `a` rotate-left, `d` rotate-right, `w` zoom-in and
`s` zoom-out presses in any order (other keys allowed), ends with
`rotationY = r + (d - a) * (5π/180)` and `cameraPosition = (x, y, z + 0.2 (s - w))`.
In particular three `d` presses from the initial values give `3 * (5π/180)`, five
`s` presses from the initial values give `cameraPosition.z = 5.0`, and any lefts
followed by as many rights give back the rotation they started from. -/
theorem closed_form (L : Lib ℝ) (hPI : L.PI = Real.pi) (keys : List String)
    (hkeys : ∀ k ∈ keys, k ≠ "r" ∧ k ≠ "R") (g : Globals ℝ) :
    ((handleKeys L keys g).rotationY = g.rotationY
        + ((keys.countP isRotateRight : ℝ) - (keys.countP isRotateLeft : ℝ))
          * (5 * Real.pi / 180)
      ∧ (handleKeys L keys g).cameraPosition =
        (g.cameraPosition.1, g.cameraPosition.2.1,
          g.cameraPosition.2.2
            + 0.2 * ((keys.countP isZoomOut : ℝ) - (keys.countP isZoomIn : ℝ))))
    ∧ (handleKeys L ["d", "d", "d"]
        { g with rotationY := initialRotationY,
                 cameraPosition := initialCameraPosition }).rotationY
        = 3 * (5 * Real.pi / 180)
    ∧ (handleKeys L ["s", "s", "s", "s", "s"]
        { g with rotationY := initialRotationY,
                 cameraPosition := initialCameraPosition }).cameraPosition.2.2 = 5.0
    ∧ (∀ lefts rights : List String, (∀ k ∈ lefts, isRotateLeft k = true) →
        (∀ k ∈ rights, isRotateRight k = true) → lefts.length = rights.length →
        (handleKeys L (lefts ++ rights) g).rotationY = g.rotationY) := by
  have hstep : toRadian L 5 = 5 * Real.pi / 180 := by
    simp only [toRadian, hPI]; ring
  refine ⟨?_, ?_, ?_, ?_⟩
  · have h := handleKeys_closed L keys hkeys g
    rw [hstep] at h
    exact h
  · have h := (handleKeys_closed L ["d", "d", "d"] (by decide)
      { g with rotationY := initialRotationY,
               cameraPosition := initialCameraPosition }).1
    rw [h, hstep]
    simp [isRotateRight, isRotateLeft, initialRotationY, List.countP_cons]
    norm_num
  · have h := (handleKeys_closed L ["s", "s", "s", "s", "s"] (by decide)
      { g with rotationY := initialRotationY,
               cameraPosition := initialCameraPosition }).2
    rw [h]
    simp [isZoomOut, isZoomIn, initialCameraPosition, List.countP_cons]
    norm_num
  · intro lefts rights hl hr hlen
    have hnr : ∀ k ∈ lefts ++ rights, k ≠ "r" ∧ k ≠ "R" := by
      intro k hk
      rcases List.mem_append.mp hk with hk | hk
      · exact (isRotateLeft_facts k (hl k hk)).2
      · exact (isRotateRight_facts k (hr k hk)).2
    have h := (handleKeys_closed L (lefts ++ rights) hnr g).1
    have c1 : lefts.countP isRotateLeft = lefts.length :=
      List.countP_eq_length.mpr hl
    have c2 : rights.countP isRotateRight = rights.length :=
      List.countP_eq_length.mpr hr
    have c3 : lefts.countP isRotateRight = 0 :=
      List.countP_eq_zero.mpr (fun k hk => by simp [(isRotateLeft_facts k (hl k hk)).1])
    have c4 : rights.countP isRotateLeft = 0 :=
      List.countP_eq_zero.mpr (fun k hk => by simp [(isRotateRight_facts k (hr k hk)).1])
    rw [h, List.countP_append, List.countP_append, c1, c2, c3, c4, hlen]
    simp

/-- Witness of `closed_form`: the keys `d`, `x`, `w` on the sample state. -/
theorem closed_form_witness :
    (Lib.sample Real.pi Real.sin Real.cos).PI = Real.pi
    ∧ (∀ k ∈ ["d", "x", "w"], k ≠ "r" ∧ k ≠ "R")
    ∧ (handleKeys (Lib.sample Real.pi Real.sin Real.cos) ["d", "x", "w"]
        Globals.sample).rotationY
      = (Globals.sample : Globals ℝ).rotationY
        + (((["d", "x", "w"].countP isRotateRight : ℕ) : ℝ)
            - ((["d", "x", "w"].countP isRotateLeft : ℕ) : ℝ)) * (5 * Real.pi / 180) :=
  ⟨rfl, by decide,
    (closed_form (Lib.sample Real.pi Real.sin Real.cos) rfl ["d", "x", "w"] (by decide)
      Globals.sample).1.1⟩

/-- Witness of `unmapped_key_noop`: the key `x` on the sample state over ℚ. -/
theorem unmapped_key_noop_witness :
    "x" ∉ ["a", "A", "ArrowLeft", "d", "D", "ArrowRight", "w", "W", "ArrowUp",
      "s", "S", "ArrowDown", "r", "R"]
    ∧ (handleKey (Lib.sample (22 / 7 : ℚ) (fun _ => 0) (fun _ => 1)) "x"
        Globals.sample).rotationY = (Globals.sample : Globals ℚ).rotationY
    ∧ (handleKey (Lib.sample (22 / 7 : ℚ) (fun _ => 0) (fun _ => 1)) "x"
        Globals.sample).cameraPosition.2.2 = (Globals.sample : Globals ℚ).cameraPosition.2.2 :=
  ⟨by decide,
    (unmapped_key_noop (Lib.sample (22 / 7 : ℚ) (fun _ => 0) (fun _ => 1)) "x"
      Globals.sample (by decide)).1,
    (unmapped_key_noop (Lib.sample (22 / 7 : ℚ) (fun _ => 0) (fun _ => 1)) "x"
      Globals.sample (by decide)).2.2.2⟩

/-! ## The redraw -/

/-- The clears and indexed draws of one frame. -/
theorem draw_clears_and_draws (L : Lib α) (g : Globals α) :
    (emitted g.host (draw L g).host).filter (fun c => c.isClear || c.isDrawElements)
      = [ GLCmd.clear (COLOR_BUFFER_BIT ||| DEPTH_BUFFER_BIT),
          GLCmd.drawElements TRIANGLES g.sphereShape.indices.length UNSIGNED_SHORT 0,
          GLCmd.drawElements TRIANGLES g.cubeShape.indices.length UNSIGNED_SHORT 0,
          GLCmd.drawElements TRIANGLES g.floorShape.indices.length UNSIGNED_SHORT 0 ] := by
  simp [emitted, draw, drawShapes, setUpCamera, GLCmd.isClear, GLCmd.isDrawElements]

/-- The indexed draws of one frame with the vertex array each one uses. -/
theorem draw_drawCalls (L : Lib α) (g : Globals α) (bound : Option Handle) :
    drawCalls bound (emitted g.host (draw L g).host)
      = [ (some g.sphereVAO, g.sphereShape.indices.length),
          (some g.cubeVAO, g.cubeShape.indices.length),
          (some g.floorVAO, g.floorShape.indices.length) ] := by
  simp [emitted, draw, drawShapes, setUpCamera, drawCalls]

/-- Drawing again from the state a draw left behind emits the same frame. -/
theorem draw_frame_again (L : Lib α) (g : Globals α) :
    emitted (draw L g).host (draw L (draw L g)).host = emitted g.host (draw L g).host := by
  simp [emitted, draw, drawShapes, setUpCamera]

/-- The frame submits the eye position and the sphere matrix of the state drawn. -/
theorem draw_reads_state (L : Lib α) (g : Globals α) :
    GLCmd.uniform3fv g.phongProgram.uViewPosition g.cameraPosition
        ∈ emitted g.host (draw L g).host
    ∧ GLCmd.uniformMatrix4fv g.phongProgram.uModelMatrix false (sphereModel L g.rotationY)
        ∈ emitted g.host (draw L g).host := by
  simp [emitted, draw, drawShapes, setUpCamera]

/-- The function `handleKey` is `draw` on a state that differs from the given
one in `rotationY` and `cameraPosition` at most. -/
theorem handleKey_eq_draw (L : Lib α) (key : String) (g : Globals α) :
    ∃ g1 : Globals α, handleKey L key g = draw L g1 ∧ g1.host = g.host
      ∧ g1.toSceneObjects = g.toSceneObjects ∧ g1.phongProgram = g.phongProgram := by
  unfold handleKey
  split_ifs <;> exact ⟨_, rfl, rfl, rfl, rfl⟩

/-- C8: whatever the key and the state, the calls `handleKey` adds to the log
hold one framebuffer clear followed by three indexed triangle draws, on the
vertex arrays of sphere, pedestal cube and floor in that order, and they are the
frame of the state after the mutation: the eye position and the sphere matrix
submitted are those of the resulting `cameraPosition` and `rotationY`. -/
theorem one_redraw_per_key (L : Lib α) (key : String) (g : Globals α) :
    (emitted g.host (handleKey L key g).host).filter (fun c => c.isClear || c.isDrawElements)
      = [ GLCmd.clear (COLOR_BUFFER_BIT ||| DEPTH_BUFFER_BIT),
          GLCmd.drawElements TRIANGLES g.sphereShape.indices.length UNSIGNED_SHORT 0,
          GLCmd.drawElements TRIANGLES g.cubeShape.indices.length UNSIGNED_SHORT 0,
          GLCmd.drawElements TRIANGLES g.floorShape.indices.length UNSIGNED_SHORT 0 ]
    ∧ drawCalls none (emitted g.host (handleKey L key g).host)
      = [ (some g.sphereVAO, g.sphereShape.indices.length),
          (some g.cubeVAO, g.cubeShape.indices.length),
          (some g.floorVAO, g.floorShape.indices.length) ]
    ∧ emitted g.host (handleKey L key g).host
      = emitted (handleKey L key g).host (draw L (handleKey L key g)).host
    ∧ GLCmd.uniform3fv g.phongProgram.uViewPosition (handleKey L key g).cameraPosition
        ∈ emitted g.host (handleKey L key g).host
    ∧ GLCmd.uniformMatrix4fv g.phongProgram.uModelMatrix false
          (sphereModel L (handleKey L key g).rotationY)
        ∈ emitted g.host (handleKey L key g).host := by
  obtain ⟨g1, hdraw, hhost, hobj, hprog⟩ := handleKey_eq_draw L key g
  have hs : g1.sphereShape = g.sphereShape ∧ g1.cubeShape = g.cubeShape
      ∧ g1.floorShape = g.floorShape ∧ g1.sphereVAO = g.sphereVAO
      ∧ g1.cubeVAO = g.cubeVAO ∧ g1.floorVAO = g.floorVAO := by
    simp [← hobj]
  obtain ⟨h1, h2, h3, h4, h5, h6⟩ := hs
  rw [hdraw, ← hhost, ← h1, ← h2, ← h3, ← h4, ← h5, ← h6, ← hprog, draw_rotationY,
    draw_cameraPosition]
  exact ⟨draw_clears_and_draws L g1, draw_drawCalls L g1 none,
    (draw_frame_again L g1).symm, (draw_reads_state L g1).1, (draw_reads_state L g1).2⟩

/-! ## Model matrices -/

/-- The matrices of one `drawShapes` call at the three draws, each with the
vertex array drawn and the location it was submitted to. -/
theorem drawShapes_matrices (L : Lib α) (g : Globals α) :
    matrixAtDraw none none (emitted g.host (drawShapes L g).host)
      = [ (some g.sphereVAO, some (g.phongProgram.uModelMatrix, sphereModel L g.rotationY)),
          (some g.cubeVAO, some (g.phongProgram.uModelMatrix, cubeModel L g.rotationY)),
          (some g.floorVAO, some (g.phongProgram.uModelMatrix, floorModel)) ] := by
  have h : emitted g.host (drawShapes L g).host
      = (drawShapes L { g with host := { g.host with trace := [] } }).host.trace := by
    simp [emitted, drawShapes, setUpCamera]
  rw [h]
  simp only [drawShapes, setUpCamera, Host.emits_trace, Host.emit_trace, List.nil_append,
    List.cons_append, List.singleton_append]
  simp only [matrixAtDraw]

theorem sphereModel_eq (L : Lib α) (r : α) :
    sphereModel L r = rotationYMatrix L r * translationMatrix (0.0, 0.75, 0.0) := by
  unfold sphereModel mat4.translate mat4.rotateY mat4.create
  rw [one_mul]

theorem cubeModel_eq (L : Lib α) (r : α) :
    cubeModel L r = rotationYMatrix L r * translationMatrix (0.0, -0.25, 0.0)
      * scalingMatrix (1.4, 0.75, 1.4) := by
  unfold cubeModel mat4.scale mat4.translate mat4.rotateY mat4.create
  rw [one_mul]

theorem floorModel_eq :
    (floorModel : Mat4 α)
      = translationMatrix (0.0, -1.1, 0.0) * scalingMatrix (8.0, 0.1, 6.0) := by
  unfold floorModel mat4.scale mat4.translate mat4.create
  rw [one_mul]

/-- The rotation by an angle of sine 0 and cosine 1 is the identity. -/
theorem rotationYMatrix_eq_one (L : Lib α) (r : α) (hsin : L.sin r = 0)
    (hcos : L.cos r = 1) : rotationYMatrix L r = 1 := by
  ext i j
  fin_cases i <;> fin_cases j <;> simp [rotationYMatrix, hsin, hcos] <;> rfl

/-- An entry of a product of two 4×4 matrices, written out. -/
theorem mul_entry (A B : Mat4 α) (i j : Fin 4) :
    (A * B) i j = A i 0 * B 0 j + A i 1 * B 1 j + A i 2 * B 2 j + A i 3 * B 3 j := by
  rw [Matrix.mul_apply, Fin.sum_univ_four]

/-- Entries (0,0) and (2,0) of a rotation followed by a translation. -/
theorem rotate_translate_entries (L : Lib α) (r : α) (v : Vec3 α) :
    (rotationYMatrix L r * translationMatrix v) 0 0 = L.cos r
    ∧ (rotationYMatrix L r * translationMatrix v) 2 0 = -(L.sin r)
    ∧ (translationMatrix v) 0 0 = 1 ∧ (translationMatrix v) 2 0 = 0 := by
  refine ⟨?_, ?_, rfl, rfl⟩
  · rw [mul_entry]
    change L.cos r * 1 + 0 * 0 + L.sin r * 0 + 0 * 0 = L.cos r
    ring
  · rw [mul_entry]
    change -(L.sin r) * 1 + 0 * 0 + L.cos r * 0 + 0 * 0 = -(L.sin r)
    ring

/-- A rotated and translated matrix is the translation alone exactly for sine 0
and cosine 1. -/
theorem rotate_translate_eq_iff (L : Lib α) (r : α) (v : Vec3 α) :
    rotationYMatrix L r * translationMatrix v = translationMatrix v
      ↔ L.sin r = 0 ∧ L.cos r = 1 := by
  obtain ⟨e00, e20, t00, t20⟩ := rotate_translate_entries L r v
  constructor
  · intro h
    have h00 := congrFun (congrFun h 0) 0
    have h20 := congrFun (congrFun h 2) 0
    rw [e00, t00] at h00
    rw [e20, t20] at h20
    exact ⟨neg_eq_zero.mp h20, h00⟩
  · rintro ⟨hs, hc⟩
    rw [rotationYMatrix_eq_one L r hs hc, one_mul]

/-- Entries (0,0) and (2,0) with a scaling after the translation. -/
theorem rotate_translate_scale_entries (L : Lib α) (r : α) (v s : Vec3 α) :
    (rotationYMatrix L r * translationMatrix v * scalingMatrix s) 0 0 = L.cos r * s.1
    ∧ (rotationYMatrix L r * translationMatrix v * scalingMatrix s) 2 0 = -(L.sin r) * s.1
    ∧ (translationMatrix v * scalingMatrix s) 0 0 = s.1
    ∧ (translationMatrix v * scalingMatrix s) 2 0 = 0 := by
  obtain ⟨e00, e20, -, -⟩ := rotate_translate_entries L r v
  have s0 : scalingMatrix s 0 0 = s.1 := rfl
  have s1 : scalingMatrix s 1 0 = 0 := rfl
  have s2 : scalingMatrix s 2 0 = 0 := rfl
  have s3 : scalingMatrix s 3 0 = 0 := rfl
  refine ⟨?_, ?_, ?_, ?_⟩
  · rw [mul_entry, s0, s1, s2, s3, e00]
    ring
  · rw [mul_entry, s0, s1, s2, s3, e20]
    ring
  · rw [mul_entry, s0, s1, s2, s3]
    change 1 * s.1 + 0 * 0 + 0 * 0 + v.1 * 0 = s.1
    ring
  · rw [mul_entry, s0, s1, s2, s3]
    change 0 * s.1 + 0 * 0 + 1 * 0 + v.2.2 * 0 = 0
    ring

/-- The same with a scaling of non-zero first component behind. -/
theorem rotate_translate_scale_eq_iff (L : Lib α) (r : α) (v s : Vec3 α) (hs1 : s.1 ≠ 0) :
    rotationYMatrix L r * translationMatrix v * scalingMatrix s
        = translationMatrix v * scalingMatrix s
      ↔ L.sin r = 0 ∧ L.cos r = 1 := by
  obtain ⟨e00, e20, t00, t20⟩ := rotate_translate_scale_entries L r v s
  constructor
  · intro h
    have h00 := congrFun (congrFun h 0) 0
    have h20 := congrFun (congrFun h 2) 0
    rw [e00, t00] at h00
    rw [e20, t20] at h20
    refine ⟨?_, ?_⟩
    · rcases mul_eq_zero.mp h20 with h0 | h0
      · exact neg_eq_zero.mp h0
      · exact absurd h0 hs1
    · exact mul_right_cancel₀ hs1 (by rw [h00, one_mul])
  · rintro ⟨hs, hc⟩
    rw [rotationYMatrix_eq_one L r hs hc, one_mul]

/-- C9, as the script has it: at the three draws of `drawShapes` the matrix
last submitted, to the location `uModelMatrix`, is
`rotateY(rotationY) * translate(0, 0.75, 0)` for the sphere's vertex array,
`rotateY(rotationY) * translate(0, -0.25, 0) * scale(1.4, 0.75, 1.4)` for the
pedestal's and `translate(0, -1.1, 0) * scale(8, 0.1, 6)` for the floor's; the
floor entry is the same for any two values of `rotationY`; with `sin 0 = 0` and
`cos 0 = 1` the entries at `rotationY = 0` are the unrotated matrices; and the
sphere entry, like the pedestal entry, equals its entry at `rotationY = 0`
exactly when the sine of `rotationY` is 0 and its cosine is 1. -/
theorem rotation_spares_floor [CharZero α] (L : Lib α) (hsin : L.sin 0 = 0)
    (hcos : L.cos 0 = 1) (g : Globals α) :
    matrixAtDraw none none (emitted g.host (drawShapes L g).host)
      = [ (some g.sphereVAO, some (g.phongProgram.uModelMatrix,
            rotationYMatrix L g.rotationY * translationMatrix (0.0, 0.75, 0.0))),
          (some g.cubeVAO, some (g.phongProgram.uModelMatrix,
            rotationYMatrix L g.rotationY * translationMatrix (0.0, -0.25, 0.0)
              * scalingMatrix (1.4, 0.75, 1.4))),
          (some g.floorVAO, some (g.phongProgram.uModelMatrix,
            translationMatrix (0.0, -1.1, 0.0) * scalingMatrix (8.0, 0.1, 6.0))) ]
    ∧ (∀ r r' : α,
        (matrixAtDraw none none (emitted g.host
            (drawShapes L { g with rotationY := r }).host))[2]?
          = (matrixAtDraw none none (emitted g.host
            (drawShapes L { g with rotationY := r' }).host))[2]?)
    ∧ matrixAtDraw none none (emitted g.host (drawShapes L { g with rotationY := 0 }).host)
      = [ (some g.sphereVAO, some (g.phongProgram.uModelMatrix,
            translationMatrix (0.0, 0.75, 0.0))),
          (some g.cubeVAO, some (g.phongProgram.uModelMatrix,
            translationMatrix (0.0, -0.25, 0.0) * scalingMatrix (1.4, 0.75, 1.4))),
          (some g.floorVAO, some (g.phongProgram.uModelMatrix,
            translationMatrix (0.0, -1.1, 0.0) * scalingMatrix (8.0, 0.1, 6.0))) ]
    ∧ (∀ r : α,
        ((matrixAtDraw none none (emitted g.host
              (drawShapes L { g with rotationY := r }).host))[0]?
            = (matrixAtDraw none none (emitted g.host
              (drawShapes L { g with rotationY := 0 }).host))[0]?
          ↔ L.sin r = 0 ∧ L.cos r = 1)
        ∧ ((matrixAtDraw none none (emitted g.host
              (drawShapes L { g with rotationY := r }).host))[1]?
            = (matrixAtDraw none none (emitted g.host
              (drawShapes L { g with rotationY := 0 }).host))[1]?
          ↔ L.sin r = 0 ∧ L.cos r = 1)) := by
  have hat : ∀ r : α,
      matrixAtDraw none none (emitted g.host (drawShapes L { g with rotationY := r }).host)
        = [ (some g.sphereVAO, some (g.phongProgram.uModelMatrix, sphereModel L r)),
            (some g.cubeVAO, some (g.phongProgram.uModelMatrix, cubeModel L r)),
            (some g.floorVAO, some (g.phongProgram.uModelMatrix, floorModel)) ] :=
    fun r => drawShapes_matrices L { g with rotationY := r }
  have hone : rotationYMatrix L 0 = 1 := rotationYMatrix_eq_one L 0 hsin hcos
  have hscale : ((1.4, 0.75, 1.4) : Vec3 α).1 ≠ 0 := by
    show (1.4 : α) ≠ 0
    norm_num
  refine ⟨?_, ?_, ?_, ?_⟩
  · rw [drawShapes_matrices, sphereModel_eq, cubeModel_eq, floorModel_eq]
  · intro r r'
    rw [hat r, hat r']
    simp only [List.getElem?_cons_succ, List.getElem?_cons_zero]
  · rw [hat 0, sphereModel_eq, cubeModel_eq, floorModel_eq, hone, one_mul, one_mul]
  · intro r
    rw [hat r, hat 0]
    simp only [List.getElem?_cons_succ, List.getElem?_cons_zero, Option.some.injEq,
      Prod.mk.injEq, true_and]
    rw [sphereModel_eq, sphereModel_eq, cubeModel_eq, cubeModel_eq, hone, one_mul, one_mul]
    exact ⟨rotate_translate_eq_iff L r _, rotate_translate_scale_eq_iff L r _ _ hscale⟩

/-- Witness of `rotation_spares_floor`: the sample state over ℚ, with the
polynomials `x - x^3/6` and `1 - x^2/2` for sine and cosine. -/
theorem rotation_spares_floor_witness :
    (Lib.sample (22 / 7 : ℚ) (fun x => x - x ^ 3 / 6) (fun x => 1 - x ^ 2 / 2)).sin 0 = 0
    ∧ (Lib.sample (22 / 7 : ℚ) (fun x => x - x ^ 3 / 6) (fun x => 1 - x ^ 2 / 2)).cos 0 = 1
    ∧ matrixAtDraw none none (emitted (Globals.sample : Globals ℚ).host
        (drawShapes (Lib.sample (22 / 7 : ℚ) (fun x => x - x ^ 3 / 6)
          (fun x => 1 - x ^ 2 / 2)) { Globals.sample with rotationY := 0 }).host)
      = [ (some (Globals.sample : Globals ℚ).sphereVAO,
            some ((Globals.sample : Globals ℚ).phongProgram.uModelMatrix,
              translationMatrix (0.0, 0.75, 0.0))),
          (some (Globals.sample : Globals ℚ).cubeVAO,
            some ((Globals.sample : Globals ℚ).phongProgram.uModelMatrix,
              translationMatrix (0.0, -0.25, 0.0) * scalingMatrix (1.4, 0.75, 1.4))),
          (some (Globals.sample : Globals ℚ).floorVAO,
            some ((Globals.sample : Globals ℚ).phongProgram.uModelMatrix,
              translationMatrix (0.0, -1.1, 0.0) * scalingMatrix (8.0, 0.1, 6.0))) ] :=
  ⟨by simp [Lib.sample], by simp [Lib.sample],
    (rotation_spares_floor
      (Lib.sample (22 / 7 : ℚ) (fun x => x - x ^ 3 / 6) (fun x => 1 - x ^ 2 / 2))
      (by simp [Lib.sample]) (by simp [Lib.sample]) Globals.sample).2.2.1⟩

/-- C9 as stated fails: in exact real arithmetic, with the real sine and
cosine, `rotationY = 2π` is not 0 and yet the sphere and pedestal matrices
submitted are the unrotated ones, those of `rotationY = 0`. -/
theorem full_turn_is_unrotated :
    (2 * Real.pi ≠ 0)
    ∧ matrixAtDraw none none (emitted (Globals.sample : Globals ℝ).host
        (drawShapes (Lib.sample Real.pi Real.sin Real.cos)
          { Globals.sample with rotationY := 2 * Real.pi }).host)
      = matrixAtDraw none none (emitted (Globals.sample : Globals ℝ).host
        (drawShapes (Lib.sample Real.pi Real.sin Real.cos)
          { Globals.sample with rotationY := 0 }).host)
    ∧ matrixAtDraw none none (emitted (Globals.sample : Globals ℝ).host
        (drawShapes (Lib.sample Real.pi Real.sin Real.cos)
          { Globals.sample with rotationY := 2 * Real.pi }).host)
      = [ (some 5, some (some 0, translationMatrix (0.0, 0.75, 0.0))),
          (some 10, some (some 0,
            translationMatrix (0.0, -0.25, 0.0) * scalingMatrix (1.4, 0.75, 1.4))),
          (some 15, some (some 0,
            translationMatrix (0.0, -1.1, 0.0) * scalingMatrix (8.0, 0.1, 6.0))) ] := by
  have hat : ∀ r : ℝ,
      matrixAtDraw none none (emitted (Globals.sample : Globals ℝ).host
        (drawShapes (Lib.sample Real.pi Real.sin Real.cos)
          { Globals.sample with rotationY := r }).host)
        = [ (some 5, some (some 0, sphereModel (Lib.sample Real.pi Real.sin Real.cos) r)),
            (some 10, some (some 0, cubeModel (Lib.sample Real.pi Real.sin Real.cos) r)),
            (some 15, some (some 0, floorModel)) ] :=
    fun r => drawShapes_matrices (Lib.sample Real.pi Real.sin Real.cos)
      { Globals.sample with rotationY := r }
  have h2 : rotationYMatrix (Lib.sample Real.pi Real.sin Real.cos) (2 * Real.pi) = 1 :=
    rotationYMatrix_eq_one _ _ Real.sin_two_pi Real.cos_two_pi
  have h0 : rotationYMatrix (Lib.sample Real.pi Real.sin Real.cos) 0 = 1 :=
    rotationYMatrix_eq_one _ _ Real.sin_zero Real.cos_zero
  refine ⟨mul_ne_zero two_ne_zero Real.pi_ne_zero, ?_, ?_⟩
  · rw [hat, hat, sphereModel_eq, sphereModel_eq, cubeModel_eq, cubeModel_eq, h2, h0]
  · rw [hat, sphereModel_eq, cubeModel_eq, floorModel_eq, h2, one_mul, one_mul]

/-! ## Geometry upload -/

theorem elementUploads_append {β : Type} (bound : Option Handle) (a b : List (GLCmd β)) :
    elementUploads bound (a ++ b)
      = elementUploads bound a ++ elementUploads (boundAfter bound a) b := by
  induction a generalizing bound with
  | nil => simp [elementUploads, boundAfter]
  | cons c cs ih =>
    cases c <;> simp [elementUploads, boundAfter, ih]
    split_ifs <;> simp

theorem boundAfter_append {β : Type} (bound : Option Handle) (a b : List (GLCmd β)) :
    boundAfter bound (a ++ b) = boundAfter (boundAfter bound a) b := by
  induction a generalizing bound with
  | nil => simp [boundAfter]
  | cons c cs ih =>
    cases c <;> simp [boundAfter, ih]

/-- What one `bindVAO` call adds to the log, as read by the log readers. -/
theorem bindVAO_reads {β : Type} (h : Host β) (shape : Shape β) (program : Program) :
    ∃ h' : Host β,
      bindVAO h shape program = Except.ok (h.nextHandle, h')
      ∧ h'.trace = h.trace ++ emitted h h'
      ∧ attribBindings none (emitted h h')
        = (program.aVertexPosition, 3, some shape.points)
          :: ((if program.aVertexNormal ≠ some (-1) ∧ shape.normals.length > 0
                then [(program.aVertexNormal, 3, some shape.normals)] else [])
              ++ (if program.aTexCoord ≠ some (-1) ∧ shape.uv.length > 0
                then [(program.aTexCoord, 2, some shape.uv)] else []))
      ∧ buffersCreated (emitted h h')
        = 2 + (if program.aVertexNormal ≠ some (-1) ∧ shape.normals.length > 0
                then 1 else 0)
            + (if program.aTexCoord ≠ some (-1) ∧ shape.uv.length > 0 then 1 else 0)
      ∧ (∀ bound, elementUploads bound (emitted h h')
          = [(some h.nextHandle, shape.indices.length)])
      ∧ (∀ bound, boundAfter bound (emitted h h') = none)
      ∧ h'.console = h.console := by
  unfold bindVAO
  by_cases hn : program.aVertexNormal ≠ some (-1) ∧ shape.normals.length > 0 <;>
  by_cases ht : program.aTexCoord ≠ some (-1) ∧ shape.uv.length > 0 <;>
  simp [hn, ht, emitted, attribBindings, buffersCreated, elementUploads,
    boundAfter, Host.fresh, Host.emits_console, ARRAY_BUFFER, ELEMENT_ARRAY_BUFFER]

/-- What `createShapes` adds to the log: one element-array upload per object. -/
theorem createShapes_reads {β : Type} (L : Lib β) (h : Host β) (program : Program) :
    ∃ (objects : SceneObjects β) (h' : Host β),
      createShapes L h program = Except.ok (objects, h')
      ∧ objects.sphereShape = L.Sphere 40 40 ∧ objects.cubeShape = L.Cube 20
      ∧ objects.floorShape = L.Cube 2
      ∧ h'.trace = h.trace ++ emitted h h'
      ∧ elementUploads none (emitted h h')
        = [ (some objects.sphereVAO, objects.sphereShape.indices.length),
            (some objects.cubeVAO, objects.cubeShape.indices.length),
            (some objects.floorVAO, objects.floorShape.indices.length) ]
      ∧ h'.console = h.console := by
  obtain ⟨h1, e1, t1, -, -, u1, b1, c1⟩ := bindVAO_reads h (L.Sphere 40 40) program
  obtain ⟨h2, e2, t2, -, -, u2, b2, c2⟩ := bindVAO_reads h1 (L.Cube 20) program
  obtain ⟨h3, e3, t3, -, -, u3, b3, c3⟩ := bindVAO_reads h2 (L.Cube 2) program
  have ht : h3.trace = h.trace ++ (emitted h h1 ++ emitted h1 h2 ++ emitted h2 h3) := by
    rw [t3, t2, t1]; simp
  refine ⟨{ sphereShape := L.Sphere 40 40, cubeShape := L.Cube 20, floorShape := L.Cube 2,
             sphereVAO := h.nextHandle, cubeVAO := h1.nextHandle,
             floorVAO := h2.nextHandle }, h3, ?_, rfl, rfl, rfl, ?_, ?_, ?_⟩
  · simp only [createShapes, e1, e2, e3, bind, Except.bind, pure, Except.pure]
  · rw [emitted_of_append h h3 _ ht]; exact ht
  · rw [emitted_of_append h h3 _ ht, elementUploads_append, elementUploads_append,
      boundAfter_append, u1, u2, u3]
    rfl
  · rw [c3, c2, c1]

/-- The indexed draws of one `drawShapes` call with the vertex array each uses. -/
theorem drawShapes_drawCalls (L : Lib α) (g : Globals α) (bound : Option Handle) :
    drawCalls bound (emitted g.host (drawShapes L g).host)
      = [ (some g.sphereVAO, g.sphereShape.indices.length),
          (some g.cubeVAO, g.cubeShape.indices.length),
          (some g.floorVAO, g.floorShape.indices.length) ] := by
  simp [emitted, drawShapes, setUpCamera, drawCalls]

/-- C5, as the script has it: on a shape without normals `bindVAO` raises no
error, whatever the program declares; it returns the vertex array; the
attributes it binds are position (3 components) and, when the uv location is
not -1 and the shape has uv data, texture coordinates (2 components), so that no
buffer is created or uploaded for the normal attribute: the buffers created are
those of position and indices and, under its guard, uv; and the one element-array
upload, of `shape.indices.length` elements into the returned vertex array, is
made as for any other shape. -/
theorem missing_normals_skipped {β : Type} (h : Host β) (shape : Shape β)
    (program : Program) (hnormals : shape.normals = []) :
    ∃ h' : Host β,
      bindVAO h shape program = Except.ok (h.nextHandle, h')
      ∧ attribBindings none (emitted h h')
        = (program.aVertexPosition, 3, some shape.points)
          :: (if program.aTexCoord ≠ some (-1) ∧ shape.uv.length > 0
                then [(program.aTexCoord, 2, some shape.uv)] else [])
      ∧ buffersCreated (emitted h h')
        = 2 + (if program.aTexCoord ≠ some (-1) ∧ shape.uv.length > 0 then 1 else 0)
      ∧ elementUploads none (emitted h h') = [(some h.nextHandle, shape.indices.length)] := by
  obtain ⟨h', e, -, a, b, u, -⟩ := bindVAO_reads h shape program
  refine ⟨h', e, ?_, ?_, u none⟩
  · rw [a]; simp [hnormals]
  · rw [b]; simp [hnormals]

/-- Witness of `missing_normals_skipped`: the triangle without normals. -/
theorem missing_normals_skipped_witness :
    (Shape.bareTriangle : Shape ℚ).normals = []
    ∧ ∃ h' : Host ℚ,
      bindVAO (Host.start ℚ) Shape.bareTriangle Program.sample
        = Except.ok ((Host.start ℚ).nextHandle, h')
      ∧ attribBindings none (emitted (Host.start ℚ) h')
        = (Program.sample.aVertexPosition, 3, some (Shape.bareTriangle : Shape ℚ).points)
          :: (if Program.sample.aTexCoord ≠ some (-1)
                  ∧ (Shape.bareTriangle : Shape ℚ).uv.length > 0
                then [(Program.sample.aTexCoord, 2, some (Shape.bareTriangle : Shape ℚ).uv)]
                else [])
      ∧ buffersCreated (emitted (Host.start ℚ) h')
        = 2 + (if Program.sample.aTexCoord ≠ some (-1)
                  ∧ (Shape.bareTriangle : Shape ℚ).uv.length > 0 then 1 else 0)
      ∧ elementUploads none (emitted (Host.start ℚ) h')
        = [(some (Host.start ℚ).nextHandle, (Shape.bareTriangle : Shape ℚ).indices.length)] :=
  ⟨rfl, missing_normals_skipped (Host.start ℚ) Shape.bareTriangle Program.sample rfl⟩

/-- C5 as stated fails: the sample program declares the normal attribute (slot
1), the shape has no normals, and `bindVAO` returns vertex array 1 instead of
failing with `ShaderIncompatible`. -/
theorem missing_normals_not_rejected :
    (Shape.bareTriangle : Shape ℚ).normals = []
    ∧ Program.sample.aVertexNormal ≠ some (-1)
    ∧ (∃ h' : Host ℚ,
        bindVAO (Host.start ℚ) Shape.bareTriangle Program.sample = Except.ok (1, h'))
    ∧ bindVAO (Host.start ℚ) Shape.bareTriangle Program.sample
        ≠ Except.error Failure.ShaderIncompatible := by
  obtain ⟨h', e, -⟩ := bindVAO_reads (Host.start ℚ) Shape.bareTriangle Program.sample
  refine ⟨rfl, by decide, ⟨h', e⟩, ?_⟩
  rw [e]
  exact fun hne => Except.noConfusion hne

/-- C6, as the script has it: `bindVAO` uploads the position data and binds
it to the slot `aVertexPosition` with 3 components on every call; it uploads
and binds the normals (3 components) exactly when the normal location is not -1
and the shape has normals, and the texture coordinates (2 components) exactly
when the uv location is not -1 and the shape has them; each upload is to a
buffer of its own, next to the index buffer. -/
theorem attribute_upload_rule {β : Type} (h : Host β) (shape : Shape β)
    (program : Program) :
    ∃ h' : Host β,
      bindVAO h shape program = Except.ok (h.nextHandle, h')
      ∧ attribBindings none (emitted h h')
        = (program.aVertexPosition, 3, some shape.points)
          :: ((if program.aVertexNormal ≠ some (-1) ∧ shape.normals.length > 0
                then [(program.aVertexNormal, 3, some shape.normals)] else [])
              ++ (if program.aTexCoord ≠ some (-1) ∧ shape.uv.length > 0
                then [(program.aTexCoord, 2, some shape.uv)] else []))
      ∧ buffersCreated (emitted h h')
        = 2 + (if program.aVertexNormal ≠ some (-1) ∧ shape.normals.length > 0
                then 1 else 0)
            + (if program.aTexCoord ≠ some (-1) ∧ shape.uv.length > 0 then 1 else 0) := by
  obtain ⟨h', e, -, a, b, -, -⟩ := bindVAO_reads h shape program
  exact ⟨h', e, a, b⟩

/-- C6 as stated fails for position: the program declares no position
attribute (location -1), yet `bindVAO` uploads the points and binds them to
slot -1 with 3 components instead of skipping them. -/
theorem undeclared_position_uploaded :
    Program.noPosition.aVertexPosition = some (-1)
    ∧ ∃ h' : Host ℚ,
      bindVAO (Host.start ℚ) Shape.triangle Program.noPosition = Except.ok (1, h')
      ∧ (some (-1), 3, some (Shape.triangle : Shape ℚ).points)
          ∈ attribBindings none (emitted (Host.start ℚ) h')
      ∧ ¬ ((Shape.triangle : Shape ℚ).points.length > 0
            ∧ Program.noPosition.aVertexPosition ≠ some (-1)) := by
  obtain ⟨h', e, -, a, -⟩ := bindVAO_reads (Host.start ℚ) Shape.triangle Program.noPosition
  refine ⟨rfl, h', e, ?_, ?_⟩
  · rw [a]
    exact List.mem_cons_self _ _
  · intro hc
    exact hc.2 rfl

/-- C7: for every shape and program `bindVAO` makes exactly one element-array
upload, of `shape.indices.length` elements, into the vertex array it returns;
and the three uploads `createShapes` makes are, vertex array by vertex array and
count by count, the three indexed draws `drawShapes` issues for those objects. -/
theorem index_round_trip (L : Lib α) (h : Host α) (shape : Shape α) (program : Program)
    (g : Globals α) :
    (∃ h' : Host α,
      bindVAO h shape program = Except.ok (h.nextHandle, h')
      ∧ elementUploads none (emitted h h') = [(some h.nextHandle, shape.indices.length)])
    ∧ (∃ (objects : SceneObjects α) (h' : Host α),
        createShapes L h program = Except.ok (objects, h')
        ∧ elementUploads none (emitted h h')
          = [ (some objects.sphereVAO, objects.sphereShape.indices.length),
              (some objects.cubeVAO, objects.cubeShape.indices.length),
              (some objects.floorVAO, objects.floorShape.indices.length) ]
        ∧ drawCalls none
            (emitted g.host (drawShapes L { g with toSceneObjects := objects }).host)
          = elementUploads none (emitted h h')) := by
  constructor
  · obtain ⟨h', e, -, -, -, u, -⟩ := bindVAO_reads h shape program
    exact ⟨h', e, u none⟩
  · obtain ⟨objects, h', e, -, -, -, -, u, -⟩ := createShapes_reads L h program
    refine ⟨objects, h', e, u, ?_⟩
    rw [u]
    exact drawShapes_drawCalls L { g with toSceneObjects := objects } none

/-! ## Start-up after a failed link -/

/-- Every `draw` adds a clear and the indexed draw of the sphere to the log,
and leaves console and program alone. -/
theorem draw_issues (L : Lib α) (g : Globals α) :
    GLCmd.clear (COLOR_BUFFER_BIT ||| DEPTH_BUFFER_BIT) ∈ (draw L g).host.trace
    ∧ GLCmd.drawElements TRIANGLES g.sphereShape.indices.length UNSIGNED_SHORT 0
        ∈ (draw L g).host.trace
    ∧ (draw L g).host.console = g.host.console
    ∧ (draw L g).phongProgram = g.phongProgram := by
  simp [draw, drawShapes, setUpCamera]

/-- On the sample page with a failing link, `initPrograms` logs the error and
returns a program object without locations. -/
theorem initPrograms_sample_false {β : Type} (h : Host β) :
    ∃ h' : Host β, initPrograms (Env.sample false) h
        = Except.ok (Program.bare (h.nextHandle + 2), h')
      ∧ h'.console = h.console ++ ["Could not link shaders: link error"] := by
  simp [initPrograms, getShader, Env.sample, Host.fresh, Host.error]

/-- C4 fails on the script: on a page whose context is obtained and whose
shaders compile but do not link, `init` logs the link error, goes on with a
program object that has no locations, runs to its end and has issued the
framebuffer clear and the indexed draws of the first `draw`. -/
theorem init_draws_after_failed_link :
    (Env.sample false).webgl2 = true ∧ (Env.sample false).linkStatus = false
    ∧ ∃ g : Globals ℚ,
      init (Lib.sample (22 / 7 : ℚ) (fun x => x) (fun _ => 1)) (Env.sample false)
        = InitResult.running g
      ∧ g.phongProgram = Program.bare 3
      ∧ g.host.console = ["Could not link shaders: link error"]
      ∧ GLCmd.clear (COLOR_BUFFER_BIT ||| DEPTH_BUFFER_BIT) ∈ g.host.trace
      ∧ GLCmd.drawElements TRIANGLES 3 UNSIGNED_SHORT 0 ∈ g.host.trace := by
  refine ⟨rfl, rfl, ?_⟩
  obtain ⟨h1, e1, c1⟩ := initPrograms_sample_false ((Host.start ℚ).emits
      [ GLCmd.viewport 0 0 (Env.sample false).canvasWidth (Env.sample false).canvasHeight,
        GLCmd.enable DEPTH_TEST,
        GLCmd.enable CULL_FACE,
        GLCmd.cullFace BACK,
        GLCmd.frontFace CCW,
        GLCmd.clearColor 0.03 0.03 0.03 1.0,
        GLCmd.clearDepth 1.0,
        GLCmd.depthFunc LEQUAL ])
  obtain ⟨objects, h2, e2, s2, -, -, -, -, c2⟩ :=
    createShapes_reads (Lib.sample (22 / 7 : ℚ) (fun x => x) (fun _ => 1))
      (setUpTextures (Env.sample false) h1).2 (Program.bare 3)
  have hn : ((Host.start ℚ).emits
      [ GLCmd.viewport 0 0 (Env.sample false).canvasWidth (Env.sample false).canvasHeight,
        GLCmd.enable DEPTH_TEST,
        GLCmd.enable CULL_FACE,
        GLCmd.cullFace BACK,
        GLCmd.frontFace CCW,
        GLCmd.clearColor 0.03 0.03 0.03 1.0,
        GLCmd.clearDepth 1.0,
        GLCmd.depthFunc LEQUAL ]).nextHandle + 2 = 3 := by
    simp [Host.start]
  rw [hn] at e1
  have hinit : init (Lib.sample (22 / 7 : ℚ) (fun x => x) (fun _ => 1)) (Env.sample false)
      = InitResult.running (draw (Lib.sample (22 / 7 : ℚ) (fun x => x) (fun _ => 1))
          { objects with
            host := h2
            canvasWidth := (Env.sample false).canvasWidth
            canvasHeight := (Env.sample false).canvasHeight
            phongProgram := Program.bare 3
            woodTexture := some (setUpTextures (Env.sample false) h1).1
            viewMatrix := mat4.create
            projMatrix := mat4.create
            cameraPosition := initialCameraPosition
            rotationY := initialRotationY }) := by
    unfold init
    rw [if_neg (by simp [Env.sample])]
    simp only [e1, e2]
  have hd := draw_issues (Lib.sample (22 / 7 : ℚ) (fun x => x) (fun _ => 1))
          { objects with
            host := h2
            canvasWidth := (Env.sample false).canvasWidth
            canvasHeight := (Env.sample false).canvasHeight
            phongProgram := Program.bare 3
            woodTexture := some (setUpTextures (Env.sample false) h1).1
            viewMatrix := mat4.create
            projMatrix := mat4.create
            cameraPosition := initialCameraPosition
            rotationY := initialRotationY }
  have hlen : objects.sphereShape.indices.length = 3 := by
    rw [s2]; rfl
  have hc : h2.console = ["Could not link shaders: link error"] := by
    rw [c2]
    simp [setUpTextures, Host.fresh, c1, Host.start]
  refine ⟨_, hinit, hd.2.2.2, ?_, hd.1, ?_⟩
  · rw [hd.2.2.1]; exact hc
  · have := hd.2.1
    rw [hlen] at this
    exact this

/-! ## Sphere mesh -/

theorem length_flatMap_const {γ δ : Type} (l : List γ) (f : γ → List δ) (k : Nat)
    (hf : ∀ x, (f x).length = k) : (l.flatMap f).length = l.length * k := by
  induction l with
  | nil => simp
  | cons x xs ih => simp [List.flatMap_cons, hf, ih, Nat.succ_mul, Nat.add_comm]

/-- The mesh of `generateSphere` for segment counts of at least 1. -/
theorem generateSphere_mesh (L : Lib α) (lat lon : Nat) (hlat : 1 ≤ lat) (hlon : 1 ≤ lon) :
    ∃ mesh : Shape α, generateSphere L lat lon = Except.ok mesh
      ∧ mesh.indices.length = 6 * lat * lon
      ∧ (∀ i ∈ mesh.indices, i < (lat + 1) * (lon + 1))
      ∧ mesh.points.length = 3 * ((lat + 1) * (lon + 1)) := by
  have hcond : ¬ (lat < 1 ∨ lon < 1) := by omega
  unfold generateSphere
  rw [if_neg hcond]
  refine ⟨_, rfl, ?_, ?_, ?_⟩
  · simp only
    rw [length_flatMap_const _ _ 6 (by intro _; rfl),
      length_flatMap_const _ _ lon (by intro _; simp)]
    simp only [List.length_range]
    ring
  · intro i hi
    simp only [List.mem_flatMap, List.mem_map, List.mem_range, List.mem_cons,
      List.mem_singleton, List.not_mem_nil, or_false] at hi
    obtain ⟨q, ⟨a, ha, b, hb, rfl⟩, hi⟩ := hi
    have h1 : a * (lon + 1) + (lon + 1) ≤ lat * (lon + 1) := by
      have : (a + 1) * (lon + 1) ≤ lat * (lon + 1) := Nat.mul_le_mul_right _ ha
      linarith [this, Nat.succ_mul a (lon + 1)]
    have h2 : (lat + 1) * (lon + 1) = lat * (lon + 1) + (lon + 1) := Nat.succ_mul _ _
    simp only at hi
    rcases hi with rfl | rfl | rfl | rfl | rfl | rfl <;> omega
  · simp only
    rw [length_flatMap_const _ _ 3 (by intro _; rfl),
      length_flatMap_const _ _ (lon + 1) (by intro _; simp)]
    simp only [List.length_range]
    ring

/-- C10: for every tessellation factor `n ≥ 1` the sphere mesh of `n` by `n`
segments has exactly `6 n²` indices, each below `(n + 1)²`, the number of its
vertices (three coordinates each). -/
theorem sphere_index_contract (L : Lib α) (n : Nat) (hn : 1 ≤ n) :
    ∃ mesh : Shape α, generateSphere L n n = Except.ok mesh
      ∧ mesh.indices.length = 6 * n ^ 2
      ∧ (∀ i ∈ mesh.indices, i < (n + 1) ^ 2)
      ∧ mesh.points.length = 3 * (n + 1) ^ 2 := by
  obtain ⟨mesh, e, h1, h2, h3⟩ := generateSphere_mesh L n n hn hn
  refine ⟨mesh, e, ?_, ?_, ?_⟩
  · rw [h1]; ring
  · intro i hi
    have := h2 i hi
    rw [pow_two]
    exact this
  · rw [h3, pow_two]

/-- Witness of `sphere_index_contract`: two segments each way, over ℚ. -/
theorem sphere_index_contract_witness :
    1 ≤ 2 ∧ ∃ mesh : Shape ℚ,
      generateSphere (Lib.sample (22 / 7 : ℚ) (fun x => x) (fun _ => 1)) 2 2 = Except.ok mesh
      ∧ mesh.indices.length = 6 * 2 ^ 2
      ∧ (∀ i ∈ mesh.indices, i < (2 + 1) ^ 2)
      ∧ mesh.points.length = 3 * (2 + 1) ^ 2 :=
  ⟨by decide,
    sphere_index_contract (Lib.sample (22 / 7 : ℚ) (fun x => x) (fun _ => 1)) 2 (by decide)⟩

end FinalMain
